import Mathlib

/-!
Verification of the SolarSurfer2 satellite-communication core: the binary
telemetry message codec (`services/libs/messages.py`), the store-and-forward
outbound queue with its retry loop (`send_data_through_rockblock` in
`services/sats_comm/main.py`), and the inbound command dispatcher
(`deal_with_income_data` in `services/sats_comm/main.py`).

The Python code is shallowly embedded: byte strings become `List Nat`,
Python `dict`s of message fields become functions `String → Option PyValue`,
fallible calls (assertions, `struct.error`, `KeyError`, `ValueError`) become
`Except`/flags, and IEEE-754 float32 payloads are represented by their 32-bit
little-endian bit patterns (the codec never computes with float values, it
only moves them across the wire).
-/

/-! ## Codec: `services/libs/messages.py` -/

/-- A `struct` format character as used in `MESSAGES`: `'B'` (unsigned byte),
`'H'` (unsigned 16-bit little-endian), `'f'` (float32 little-endian, carried
here as its 32-bit pattern), `'Ns'` (fixed-length byte string of `n` bytes). -/
inductive FieldFmt
  | B
  | H
  | F
  | S (n : Nat)
deriving DecidableEq, Repr

/-- One entry of a schema's `fields` list: `(name, format char, units text)`.
The third component is documentary only, exactly as in the source. -/
abbrev FieldDef := String × FieldFmt × String

/-- One schema of the `MESSAGES` dict: its `id` and ordered `fields`. -/
structure MessageDef where
  id : Nat
  fields : List FieldDef
deriving DecidableEq, Repr

/-- The `'global'` entry of `MESSAGES` (27 fields). -/
def globalDef : MessageDef :=
  ⟨1,
    [("heading", .B, "360degree/256"),
     ("max_abs_roll", .B, "360degree/256"),
     ("max_abs_pitch", .B, "360degree/256"),
     ("battery_voltage", .B, "decavoltage/256"),
     ("battery_current", .B, "64amps/256"),
     ("solar_voltage", .B, "64volts/256"),
     ("solar_power", .B, "200w/256"),
     ("throttle_first", .B, "100%/256"),
     ("throttle_second", .B, "100%/256"),
     ("air_temperature", .B, "64celsius/256"),
     ("water_temperature", .B, "64celsius/256"),
     ("cpu", .B, "100/256"),
     ("memory", .B, "100/256"),
     ("disk", .B, "100/256"),
     ("raspberry_temp", .B, "128celsius/256"),
     ("raspberry_volt", .B, "10volts/256"),
     ("mission_status", .B, "holding,running,drift,disarmed"),
     ("wind_speed", .B, "64meters/second"),
     ("wind_angle", .B, "360degree/256"),
     ("gps_fix_type", .B, "no gps/no fix/2d fix/3d fix"),
     ("sat_number", .B, "number"),
     ("lattitude", .F, "degrees"),
     ("longitude", .F, "degrees"),
     ("next_waypoint_lattitude", .F, "degrees"),
     ("next_waypoint_longitude", .F, "degrees"),
     ("vdop", .H, "uin16_t"),
     ("hdop", .H, "uin16_t")]⟩

/-- The `'waypoint'` entry of `MESSAGES`. -/
def waypointDef : MessageDef :=
  ⟨2,
    [("lattitude", .F, "degrees"),
     ("longitude", .F, "degrees"),
     ("holding_time", .H, "minutes")]⟩

/-- The `'control'` entry of `MESSAGES`. -/
def controlDef : MessageDef :=
  ⟨3, [("type", .B, "Hold, run, drift, disarm")]⟩

/-- The `'message'` entry of `MESSAGES`. -/
def messageDef : MessageDef :=
  ⟨4, [("text", .S 40, "text string")]⟩

/-- The `MESSAGES` dict (insertion order preserved, as in CPython). -/
def MESSAGES : List (String × MessageDef) :=
  [("global", globalDef),
   ("waypoint", waypointDef),
   ("control", controlDef),
   ("message", messageDef)]

/-- A Python value that can appear in a message dict: an `int`, a float32
(identified with its bit pattern), a `bytes` object, or a `str`. -/
inductive PyValue
  | int (i : Int)
  | float32 (bits : Nat)
  | bytes (bs : List Nat)
  | str (s : String)
deriving DecidableEq, Repr

/-- The ways a codec call can raise, tagged with the spec's error taxonomy:
`invalidHeader` is the `AssertionError` "Start byte does not match",
`unknownSchemaId` the `AssertionError` "Message id does not match",
`malformedPayload` the `struct.error` of `unpack` on a size mismatch,
`indexError` is indexing past the end of the input bytes, `missingName` the
`AssertionError` "Name does not exist in data", `schemaNotFound` the
`KeyError` of `MESSAGES[name]`, `keyError f` the `KeyError` of
`content[f]` inside `_serialize`, and `structError` a `struct.error`
raised by `pack` on an unpackable value. -/
inductive CodecError
  | invalidHeader
  | unknownSchemaId
  | malformedPayload
  | indexError
  | missingName
  | schemaNotFound
  | keyError (field : String)
  | structError
deriving DecidableEq, Repr

/-- Decidable equality of `Except` results, so theorem statements about
concrete codec calls can be settled by `decide`. -/
instance {ε α : Type} [DecidableEq ε] [DecidableEq α] : DecidableEq (Except ε α) :=
  fun a b =>
    match a, b with
    | .error e, .error f =>
        if h : e = f then isTrue (by rw [h]) else isFalse (by simp [h])
    | .error _, .ok _ => isFalse (by simp)
    | .ok _, .error _ => isFalse (by simp)
    | .ok x, .ok y =>
        if h : x = y then isTrue (by rw [h]) else isFalse (by simp [h])

/-- Byte width of one format char (`struct.calcsize` of that char). -/
def widthOf : FieldFmt → Nat
  | .B => 1
  | .H => 2
  | .F => 4
  | .S n => n

/-- `struct.calcsize` of a schema's whole format string. -/
def calcsize (fields : List FieldDef) : Nat :=
  (fields.map fun f => widthOf f.2.1).sum

/-- Recombine little-endian bytes into a number. -/
def leNat (bs : List Nat) : Nat :=
  bs.foldr (fun b acc => b + 256 * acc) 0

/-- `struct.pack(ENDIAN + fmt, v)` for one field. `'B'` and `'H'` reject
out-of-range or non-integer values (`struct.error`), `'f'` emits the four
little-endian bytes of the float32 pattern, `'Ns'` zero-pads or truncates a
`bytes` value to exactly `n` bytes and rejects non-`bytes` values. -/
def packValue : FieldFmt → PyValue → Except CodecError (List Nat)
  | .B, .int i => if 0 ≤ i ∧ i ≤ 255 then .ok [i.toNat] else .error .structError
  | .H, .int i =>
      if 0 ≤ i ∧ i ≤ 65535 then .ok [i.toNat % 256, i.toNat / 256]
      else .error .structError
  | .F, .float32 bits =>
      .ok [bits % 256, bits / 256 % 256, bits / 65536 % 256, bits / 16777216 % 256]
  | .S n, .bytes bs => .ok (bs.take n ++ List.replicate (n - bs.length) 0)
  | _, _ => .error .structError

/-- `struct.unpack` of one field from exactly `widthOf fmt` bytes. -/
def unpackValue (fmt : FieldFmt) (bs : List Nat) : PyValue :=
  match fmt with
  | .B => .int (leNat bs)
  | .H => .int (leNat bs)
  | .F => .float32 (leNat bs)
  | .S _ => .bytes bs

/-- Split a payload into the fields' values, one field after the other. -/
def unpackGo : List FieldDef → List Nat → List (String × PyValue)
  | [], _ => []
  | (fname, fmt, _) :: rest, data =>
      (fname, unpackValue fmt (data.take (widthOf fmt))) ::
        unpackGo rest (data.drop (widthOf fmt))

/-- `struct.unpack(format, data)`: raises `struct.error` unless the data
length equals `calcsize` exactly, then splits the payload. Together with
`dict(zip(names, values))` this is `_deserialize(data, name)`. -/
def structUnpack (fields : List FieldDef) (data : List Nat) :
    Except CodecError (List (String × PyValue)) :=
  if data.length = calcsize fields then .ok (unpackGo fields data)
  else .error .malformedPayload

/-- `MESSAGES[name]`, as an `Option`. -/
def lookupMsg (name : String) : Option MessageDef :=
  (MESSAGES.find? fun p => p.1 == name).map (·.2)

/-- `_serialize(content, name)`: packs each schema field in declared order,
looking the field's value up in `content` (raising `KeyError` when absent). -/
def serializeFields (fields : List FieldDef) (content : String → Option PyValue) :
    Except CodecError (List Nat) :=
  match fields with
  | [] => .ok []
  | (fname, fmt, _) :: rest =>
      match content fname with
      | none => .error (.keyError fname)
      | some v =>
          match packValue fmt v with
          | .error e => .error e
          | .ok chunk =>
              match serializeFields rest content with
              | .error e => .error e
              | .ok restBytes => .ok (chunk ++ restBytes)

/-- `serialize(data)`: asserts `'name' in data`, prepends the two-byte header
`'$'` (0x24 = 36) plus the schema id from `get_header`, then `_serialize`s the
fields. A non-`str` or unregistered name raises `KeyError` in
`MESSAGES[data['name']]`. -/
def serialize (content : String → Option PyValue) : Except CodecError (List Nat) :=
  match content "name" with
  | none => .error .missingName
  | some (.str n) =>
      match lookupMsg n with
      | none => .error .schemaNotFound
      | some mdef =>
          match serializeFields mdef.fields content with
          | .error e => .error e
          | .ok body => .ok (36 :: mdef.id :: body)
  | some _ => .error .schemaNotFound

/-- `deserialize(data)`: asserts byte 0 is `'$'`, asserts byte 1 is a
registered schema id, `_deserialize`s the remaining bytes against that
schema, and appends the `'name'` tag to the resulting dict. -/
def deserialize (data : List Nat) : Except CodecError (List (String × PyValue)) :=
  match data.get? 0 with
  | none => .error .indexError
  | some b0 =>
      if b0 = 36 then
        match data.get? 1 with
        | none => .error .indexError
        | some b1 =>
            match MESSAGES.find? (fun p => p.2.id == b1) with
            | none => .error .unknownSchemaId
            | some (name, mdef) =>
                match structUnpack mdef.fields (data.drop 2) with
                | .error e => .error e
                | .ok vals => .ok (vals ++ [("name", .str name)])
      else .error .invalidHeader

/-- A value is representable on the wire at a given format: an in-range
`int` for `'B'`/`'H'`, a 32-bit pattern for `'f'`, a `bytes` of exactly the
declared length for `'Ns'`. -/
def repOK : FieldFmt → PyValue → Bool
  | .B, .int i => decide (0 ≤ i ∧ i ≤ 255)
  | .H, .int i => decide (0 ≤ i ∧ i ≤ 65535)
  | .F, .float32 bits => decide (bits < 4294967296)
  | .S n, .bytes bs => bs.length == n
  | _, _ => false

/-- Whether a content dict holds a representable value for one field. -/
def representableAt (content : String → Option PyValue) (f : FieldDef) : Bool :=
  match content f.1 with
  | some v => repOK f.2.1 v
  | none => false

/-- A content dict conforms to a field list when every field is present and
bound to a representable value. -/
def conforms (fields : List FieldDef) (content : String → Option PyValue) : Prop :=
  ∀ f ∈ fields, representableAt content f = true

instance (fields : List FieldDef) (content : String → Option PyValue) :
    Decidable (conforms fields content) := by
  unfold conforms
  infer_instance

/-! ## Outbound queue drain: `send_data_through_rockblock` in
`services/sats_comm/main.py`

The queue `unsent_data` is a Python list, appended at the end; the drain
iterates `reversed(unsent_data)` (a live reverse iterator whose index counts
down while the list may shrink), and on a successful transfer calls
`unsent_data.pop()`, which removes the *last* element of the list.  The
transport is the modem: one call per attempt, yielding `mo_status`; it is
embedded as a function from the envelope and the in-loop retry index to the
reported status. -/

/-- `max_retries` of the send/receive loops. -/
def max_retries : Nat := 10

/-- The `while retries < max_retries` loop around `rb.satellite_transfer()`:
given the current retry index and the remaining allowed attempts, returns
how many attempts were made and whether one reported `mo_status <= 5`. -/
def attemptLoop (t : List Nat → Nat → Nat) (pkg : List Nat) :
    Nat → Nat → Nat × Bool
  | _, 0 => (0, false)
  | r, fuel + 1 =>
      if t pkg r ≤ 5 then (1, true)
      else
        let rec' := attemptLoop t pkg (r + 1) fuel
        (rec'.1 + 1, rec'.2)

/-- One envelope's whole retry loop (retries start at 0, at most
`max_retries` attempts). -/
def sendAttempt (t : List Nat → Nat → Nat) (pkg : List Nat) : Nat × Bool :=
  attemptLoop t pkg 0 max_retries

/-- The `for data_package in reversed(unsent_data)` loop.  `i + 1` means the
reverse iterator will next read index `i` of the *current* list `q`; on a
success the code pops the last element of `q`.  Returns the final queue and
the log of processed envelopes as `(envelope, attempts made, success)`. -/
def drainIter (t : List Nat → Nat → Nat) :
    Nat → List (List Nat) → List (List Nat) × List (List Nat × Nat × Bool)
  | 0, q => (q, [])
  | i + 1, q =>
      match q.get? i with
      | none => (q, [])
      | some pkg =>
          let a := sendAttempt t pkg
          if a.2 then
            let r := drainIter t i q.dropLast
            (r.1, (pkg, a.1, a.2) :: r.2)
          else
            let r := drainIter t i q
            (r.1, (pkg, a.1, a.2) :: r.2)

/-- `send_data_through_rockblock()` acting on queue `q` with transport `t`:
drains starting from the most recently enqueued element. -/
def send_data_through_rockblock (t : List Nat → Nat → Nat)
    (q : List (List Nat)) : List (List Nat) × List (List Nat × Nat × Bool) :=
  drainIter t q.length q

/-! ## Inbound command dispatcher: `deal_with_income_data` in
`services/sats_comm/main.py`

The inbound bytes are decoded to text; each verb is tested with
`str.startswith` by a chain of independent `if`s, side effects are HTTP
calls to mavlink2rest (embedded as an `Effect` trace), and the function ends
by appending `"cmd_ack:" + text` (plain ASCII bytes) to `unsent_data` and
calling `send_data_through_rockblock()` (embedded as a `drainCall` effect;
the drain's own behaviour is `send_data_through_rockblock` above).  A raised
exception (bad argument count, unparsable number, non-ASCII text) aborts the
handler; the main loop catches it, so the embedding records the state and
effects accumulated so far with `ok := false`. -/

/-- Command text, as a list of characters. -/
abbrev Text := List Char

/-- Python's `str.split(sep)` for a one-character separator. -/
def pySplit (sep : Char) : Text → List Text
  | [] => [[]]
  | c :: rest =>
      match pySplit sep rest with
      | [] => [[]]
      | g :: gs => if c = sep then [] :: g :: gs else (c :: g) :: gs

/-- `str.encode('ascii')`: the character codes, or `None` standing for the
`UnicodeEncodeError` raised on a non-ASCII character. -/
def asciiEncode (cs : Text) : Option (List Nat) :=
  if cs.all fun c => c.toNat < 128 then some (cs.map Char.toNat) else none

/-- Modelled acceptance test for Python `float(s)` (simplified to an
optional sign, then digits with an optional fractional part; exponents,
`inf`/`nan` and surrounding whitespace are not modelled — no claim below
depends on that boundary). -/
def isPyFloatBody (cs : Text) : Bool :=
  match cs.span Char.isDigit with
  | (intPart, rest) =>
      match rest with
      | [] => !intPart.isEmpty
      | '.' :: frac => (!intPart.isEmpty || !frac.isEmpty) && frac.all Char.isDigit
      | _ => false

/-- Modelled acceptance test for Python `float(s)`, with optional sign. -/
def isPyFloat (cs : Text) : Bool :=
  match cs with
  | '-' :: r => isPyFloatBody r
  | '+' :: r => isPyFloatBody r
  | _ => isPyFloatBody cs

/-- Modelled Python `int(s)` (simplified to an optional sign and digits). -/
def pyIntOf (cs : Text) : Option Int :=
  let digits := fun (ds : Text) =>
    if ds ≠ [] ∧ ds.all Char.isDigit then
      some ((ds.foldl (fun a c => a * 10 + (c.toNat - 48)) 0 : Nat) : Int)
    else none
  match cs with
  | '-' :: r => (digits r).map (fun n => -n)
  | '+' :: r => digits r
  | _ => digits cs

/-- The mutable module globals read and written by the dispatcher:
`unsent_data`, `REST_TIME_DATA_OUT`, `REST_TIME_DATA_IN`. -/
structure SatState where
  unsent_data : List (List Nat)
  rest_time_data_out : Int
  rest_time_data_in : Int
deriving DecidableEq, Repr

/-- A parameter of a `COMMAND_LONG` message: the code passes integers in
every branch except the unrecognized-mode fallback, which passes the raw
mode string. -/
inductive PyParam
  | pInt (i : Int)
  | pStr (s : Text)
deriving DecidableEq, Repr

/-- One external side-effect call made while handling a command, in order:
the `PARAM_SET` post of `set_param`, a `COMMAND_LONG` post, the
`MISSION_ITEM_INT` post, the `MISSION_SET_CURRENT` post, the heartbeat GET
of `get_mode`, or a call to `send_data_through_rockblock()`.  Raw argument
strings are recorded as received (their numeric conversion is evaluated for
success before the call, as in the source). -/
inductive Effect
  | setParamCall (param : Text) (rawValue : Text)
  | commandLongCall (cmd : String) (params : List PyParam)
  | missionItemCall (lat lon : Text)
  | missionSetCurrentCall (next : Text)
  | heartbeatCall
  | drainCall
deriving DecidableEq, Repr

/-- Dispatcher outcome: the effect trace, the final globals, and whether the
handler ran to completion (`ok = false` means an exception escaped to the
caller's `try`). -/
structure DispatchResult where
  effects : List Effect
  state : SatState
  ok : Bool
deriving DecidableEq, Repr

/-- Append effects to an accumulated result. -/
def emit (acc : DispatchResult) (es : List Effect) : DispatchResult :=
  { acc with effects := acc.effects ++ es }

/-- Mark the handler as having raised. -/
def raised (acc : DispatchResult) : DispatchResult :=
  { acc with ok := false }

/-- The `if income_data.decode().startswith("waypoint")` branch. -/
def branch_waypoint (income : Text) (acc : DispatchResult) : DispatchResult :=
  if acc.ok = false then acc
  else if "waypoint".data.isPrefixOf income then
    match pySplit ':' income with
    | [_, lat, lon, wait_time, next_id] =>
        if isPyFloat wait_time then
          let acc := emit acc
            [.setParamCall "MISSION_PAUSE_S".data wait_time,
             .commandLongCall "MAV_CMD_DO_SET_MODE" [.pInt 1, .pInt 15]]
          if isPyFloat lat then
            if isPyFloat lon then
              let acc := emit acc [.missionItemCall lat lon]
              if (pyIntOf next_id).isSome then
                emit acc [.missionSetCurrentCall next_id]
              else raised acc
            else raised acc
          else raised acc
        else raised acc
    | _ => raised acc
  else acc

/-- The `"output_rest_time"` branch: `REST_TIME_DATA_OUT = int(rest_time)`. -/
def branch_output_rest_time (income : Text) (acc : DispatchResult) : DispatchResult :=
  if acc.ok = false then acc
  else if "output_rest_time".data.isPrefixOf income then
    match pySplit ':' income with
    | [_, rest_time] =>
        match pyIntOf rest_time with
        | some v => { acc with state := { acc.state with rest_time_data_out := v } }
        | none => raised acc
    | _ => raised acc
  else acc

/-- The `"input_rest_time"` branch: `REST_TIME_DATA_IN = int(rest_time)`. -/
def branch_input_rest_time (income : Text) (acc : DispatchResult) : DispatchResult :=
  if acc.ok = false then acc
  else if "input_rest_time".data.isPrefixOf income then
    match pySplit ':' income with
    | [_, rest_time] =>
        match pyIntOf rest_time with
        | some v => { acc with state := { acc.state with rest_time_data_in := v } }
        | none => raised acc
    | _ => raised acc
  else acc

/-- The `"set_mode"` branch: one `COMMAND_LONG` whose params depend on the
mode name, with the raw string passed through for an unknown mode. -/
def branch_set_mode (income : Text) (acc : DispatchResult) : DispatchResult :=
  if acc.ok = false then acc
  else if "set_mode".data.isPrefixOf income then
    match pySplit ':' income with
    | [_, mode] =>
        let msg : Effect :=
          if mode = "manual".data then
            .commandLongCall "MAV_CMD_DO_SET_MODE" [.pInt 1, .pInt 0]
          else if mode = "auto".data then
            .commandLongCall "MAV_CMD_DO_SET_MODE" [.pInt 1, .pInt 10]
          else if mode = "smart_rtl".data then
            .commandLongCall "MAV_CMD_DO_SET_MODE" [.pInt 1, .pInt 12]
          else if mode = "guided".data then
            .commandLongCall "MAV_CMD_DO_SET_MODE" [.pInt 1, .pInt 15]
          else .commandLongCall "MAV_CMD_DO_SET_MODE" [.pStr mode]
        emit acc [msg]
    | _ => raised acc
  else acc

/-- The `"get_mode"` branch: GET the heartbeat, append
`'text:Autopilot mode: <mode>'` (plain ASCII) to `unsent_data` and drain.
`modeText` is the externally supplied `data["base_mode"]["bits"]`
rendering. -/
def branch_get_mode (modeText : Text) (income : Text) (acc : DispatchResult) :
    DispatchResult :=
  if acc.ok = false then acc
  else if "get_mode".data.isPrefixOf income then
    let acc := emit acc [.heartbeatCall]
    match asciiEncode ("text:Autopilot mode: ".data ++ modeText) with
    | some bs =>
        let acc := { acc with state :=
          { acc.state with unsent_data := acc.state.unsent_data ++ [bs] } }
        emit acc [.drainCall]
    | none => raised acc
  else acc

/-- The `"arm"` branch: one `COMMAND_LONG` arm call, no argument parsing. -/
def branch_arm (income : Text) (acc : DispatchResult) : DispatchResult :=
  if acc.ok = false then acc
  else if "arm".data.isPrefixOf income then
    emit acc [.commandLongCall "MAV_CMD_COMPONENT_ARM_DISARM" [.pInt 1]]
  else acc

/-- The `"disarm"` branch. -/
def branch_disarm (income : Text) (acc : DispatchResult) : DispatchResult :=
  if acc.ok = false then acc
  else if "disarm".data.isPrefixOf income then
    emit acc [.commandLongCall "MAV_CMD_COMPONENT_ARM_DISARM" [.pInt 0]]
  else acc

/-- The `"set_param"` branch: `set_param(param_name, float(value))`. -/
def branch_set_param (income : Text) (acc : DispatchResult) : DispatchResult :=
  if acc.ok = false then acc
  else if "set_param".data.isPrefixOf income then
    match pySplit ':' income with
    | [_, param_name, value] =>
        if isPyFloat value then emit acc [.setParamCall param_name value]
        else raised acc
    | _ => raised acc
  else acc

/-- The unconditional tail of the handler: append
`f"cmd_ack:{income}".encode("ascii")` to `unsent_data`, then call
`send_data_through_rockblock()`. -/
def ackStep (income : Text) (acc : DispatchResult) : DispatchResult :=
  if acc.ok = false then acc
  else
    match asciiEncode ("cmd_ack:".data ++ income) with
    | some ack =>
        let acc := { acc with state :=
          { acc.state with unsent_data := acc.state.unsent_data ++ [ack] } }
        emit acc [.drainCall]
    | none => raised acc

/-- `deal_with_income_data(income_data)`, starting from globals `st`, with
the heartbeat oracle `modeText`. -/
def deal_with_income_data (modeText : Text) (st : SatState) (income : Text) :
    DispatchResult :=
  ackStep income <|
    branch_set_param income <|
      branch_disarm income <|
        branch_arm income <|
          branch_get_mode modeText income <|
            branch_set_mode income <|
              branch_input_rest_time income <|
                branch_output_rest_time income <|
                  branch_waypoint income ⟨[], st, true⟩

/-- The acknowledgment bytes for a command text. -/
def ackBytes (income : Text) : List Nat :=
  ("cmd_ack:".data ++ income).map Char.toNat

/-- Whether an envelope's bytes begin with ASCII `"cmd_ack:"`. -/
def isAckBytes (bs : List Nat) : Bool :=
  ("cmd_ack:".data.map Char.toNat).isPrefixOf bs

/-- The verb strings tested by the dispatcher, in source order. -/
def dispatchVerbs : List Text :=
  ["waypoint".data, "output_rest_time".data, "input_rest_time".data,
   "set_mode".data, "get_mode".data, "arm".data, "disarm".data,
   "set_param".data]

/-! ## Concrete fixtures used by individual claims -/

/-- Initial globals of `sats_comm/main.py`: empty queue,
`REST_TIME_DATA_OUT = 120`, `REST_TIME_DATA_IN = 10`. -/
def st0 : SatState := ⟨[], 120, 10⟩

/-- A transport that always fails (status 6) for envelope `[1]` and always
succeeds (status 0) for every other envelope. -/
def tC1 : List Nat → Nat → Nat := fun pkg _ => if pkg = [1] then 6 else 0

/-- A transport that reports status 6 on the first nine attempts of every
envelope and status 0 on the tenth. -/
def tNinthOk : List Nat → Nat → Nat := fun _ r => if r < 9 then 6 else 0

/-- A transport that always reports status 6. -/
def tAlwaysFail : List Nat → Nat → Nat := fun _ _ => 6

/-- A transport that always reports status 0. -/
def tAlwaysOk : List Nat → Nat → Nat := fun _ _ => 0

/-- A control-message dict with an in-range `type`. -/
def cControl : String → Option PyValue := fun k =>
  if k = "name" then some (.str "control")
  else if k = "type" then some (.int 128) else none

/-- A control-message dict identical to `cControl` at the schema's fields but
with `type = 7` and carrying an extra key the schema does not mention. -/
def cControlA : String → Option PyValue := fun k =>
  if k = "name" then some (.str "control")
  else if k = "type" then some (.int 7) else none

/-- `cControlA` plus the extra key `time_boot_ms`, as `gather_sensors_data`
adds extra keys to the `global` dict. -/
def cControlB : String → Option PyValue := fun k =>
  if k = "name" then some (.str "control")
  else if k = "type" then some (.int 7)
  else if k = "time_boot_ms" then some (.int 99) else none

/-- A control-message dict whose `type` is 300: every schema field is
present, but the value does not fit an unsigned byte. -/
def cOverflow : String → Option PyValue := fun k =>
  if k = "name" then some (.str "control")
  else if k = "type" then some (.int 300) else none

/-- The raw acknowledgment bytes the dispatcher enqueues for `"foo:bar"`. -/
def fooBarAck : List Nat := ackBytes "foo:bar".data

/-- The message-schema dict whose `text` field holds `fooBarAck`: what the
acknowledgment would have to be serialized from if it were schema-encoded. -/
def cMsgAck : String → Option PyValue := fun k =>
  if k = "name" then some (.str "message")
  else if k = "text" then some (.bytes fooBarAck) else none

/-! ## Helper lemmas -/

/-- The retry loop makes at most as many attempts as it has fuel. -/
theorem attemptLoop_le (t : List Nat → Nat → Nat) (pkg : List Nat) :
    ∀ r fuel, (attemptLoop t pkg r fuel).1 ≤ fuel := by
  intro r fuel
  induction fuel generalizing r with
  | zero => simp [attemptLoop]
  | succ n ih =>
      unfold attemptLoop
      split
      · simp
      · simpa using Nat.add_le_add_right (ih (r + 1)) 1

/-- With a transport whose first report is a success, the retry loop makes
exactly one attempt and succeeds. -/
theorem sendAttempt_first_ok (t : List Nat → Nat → Nat) (pkg : List Nat)
    (h : t pkg 0 ≤ 5) : sendAttempt t pkg = (1, true) := by
  unfold sendAttempt max_retries attemptLoop
  simp [h]

/-- With an always-successful transport the drain loop empties the queue and
sends the envelopes from most recent to oldest, one attempt each. -/
theorem drainIter_all_ok (t : List Nat → Nat → Nat)
    (h : ∀ p r, t p r ≤ 5) :
    ∀ n (q : List (List Nat)), q.length = n →
      drainIter t n q = ([], q.reverse.map fun p => (p, 1, true)) := by
  intro n
  induction n with
  | zero =>
      intro q hq
      simp [drainIter, List.eq_nil_of_length_eq_zero hq]
  | succ m ih =>
      intro q hq
      rcases List.eq_nil_or_concat q with rfl | ⟨l, x, rfl⟩
      · simp at hq
      · simp only [List.concat_eq_append] at hq ⊢
        have hl : l.length = m := by
          simpa using hq
        have hget : (l ++ [x]).get? m = some x := by
          rw [← hl]
          exact List.get?_concat_length l x
        unfold drainIter
        rw [hget]
        simp only [sendAttempt_first_ok t _ (h _ 0), List.dropLast_concat,
          ih l hl]
        simp

/-! ## Claim C1 -/

/-- C1: the claim says `drain` removes an envelope exactly when one of that
same envelope's attempts succeeded, interleaving included.  The code instead
calls `unsent_data.pop()`, which removes the *most recently enqueued
remaining* envelope, not the one just sent.  Failing input: queue
`[[0], [1]]` (envelope `[1]` enqueued after `[0]`), with a transport that
always fails `[1]` (status 6) and immediately succeeds `[0]` (status 0).
The never-sent `[1]` is removed from the queue and the successfully sent
`[0]` is left in it — the opposite of the claim. -/
theorem c1_pop_removes_wrong_envelope :
    send_data_through_rockblock tC1 [[0], [1]] =
      ([[0]], [([1], 10, false), ([0], 1, true)]) := by
  decide

/-! ## Claim C5 -/

/-- C5: within one drain call every envelope is attempted at most
`max_retries = 10` times; an envelope whose transport reports status 6 on
the first nine attempts and status 0 on the tenth is attempted all ten
times, succeeds, and only then leaves the queue; an envelope whose
transport always reports 6 stays in the queue, and a second `drain` call
attempts it again (ten more times), leaving it queued once more. -/
theorem c5_retry_budget :
    (∀ (t : List Nat → Nat → Nat) (pkg : List Nat),
        (sendAttempt t pkg).1 ≤ max_retries) ∧
    sendAttempt tNinthOk [7] = (10, true) ∧
    send_data_through_rockblock tNinthOk [[7]] = ([], [([7], 10, true)]) ∧
    send_data_through_rockblock tAlwaysFail [[7]] = ([[7]], [([7], 10, false)]) ∧
    send_data_through_rockblock tAlwaysFail
        (send_data_through_rockblock tAlwaysFail [[7]]).1 =
      ([[7]], [([7], 10, false)]) := by
  refine ⟨fun t pkg => attemptLoop_le t pkg 0 max_retries, ?_, ?_, ?_, ?_⟩ <;> decide

/-! ## Claim C6 -/

/-- C6: `drain` walks the queue from the most recently enqueued envelope to
the oldest.  With a transport that succeeds on every attempt, the final
queue is empty and the send log is exactly the reverse of the queue (each
envelope sent on its first attempt) — so for a queue `[A, B]` with `B`
enqueued after `A`, `B` is sent before `A`. -/
theorem c6_lifo_drain (t : List Nat → Nat → Nat) (q : List (List Nat))
    (h : ∀ p r, t p r ≤ 5) :
    send_data_through_rockblock t q = ([], q.reverse.map fun p => (p, 1, true)) :=
  drainIter_all_ok t h q.length q rfl

/-- Witness for C6 at the queue `[[0], [1]]` (envelope `[1]` enqueued after
`[0]`) and the always-status-0 transport: `[1]` is sent first, then `[0]`,
and the queue ends empty. -/
theorem c6_lifo_drain_witness :
    send_data_through_rockblock tAlwaysOk [[0], [1]] =
      ([], [([1], 1, true), ([0], 1, true)]) :=
  c6_lifo_drain tAlwaysOk [[0], [1]] (fun _ _ => Nat.zero_le 5)

/-! ## Claim C8 -/

/-- C8 as stated is wrong about one number: the `global` schema has 27
fields, not 26. -/
theorem c8_counterexample :
    ¬ (lookupMsg "global").map (·.fields.length) = some 26 ∧
      (lookupMsg "global").map (·.fields.length) = some 27 := by
  decide

/-- C8 (amended: `global` has 27 fields): the registry holds exactly the
four schemas `global` (id 1, 27 fields), `waypoint` (id 2, 3 fields
`lattitude`, `longitude`, `holding_time`), `control` (id 3, 1 field
`type`), and `message` (id 4, 1 field `text` of 40 bytes). -/
theorem c8_registry_contents :
    MESSAGES.map (·.1) = ["global", "waypoint", "control", "message"] ∧
    globalDef.id = 1 ∧ globalDef.fields.length = 27 ∧
    waypointDef.id = 2 ∧
      waypointDef.fields.map (·.1) = ["lattitude", "longitude", "holding_time"] ∧
    controlDef.id = 3 ∧ controlDef.fields.map (·.1) = ["type"] ∧
    messageDef.id = 4 ∧ messageDef.fields = [("text", .S 40, "text string")] ∧
      calcsize messageDef.fields = 40 := by
  decide

/-! ## Codec lemmas -/

/-- Packing a representable value yields exactly the field's width in bytes,
and unpacking those bytes restores the value. -/
theorem pack_unpack_inv (fmt : FieldFmt) (v : PyValue) (h : repOK fmt v = true) :
    ∃ chunk, packValue fmt v = .ok chunk ∧ chunk.length = widthOf fmt ∧
      unpackValue fmt chunk = v := by
  cases fmt <;> cases v <;> simp [repOK] at h
  case B.int i =>
      refine ⟨[i.toNat], ?_, rfl, ?_⟩
      · simp [packValue, h.1, h.2]
      · simp [unpackValue, leNat, Int.toNat_of_nonneg h.1]
  case H.int i =>
      refine ⟨[i.toNat % 256, i.toNat / 256], ?_, rfl, ?_⟩
      · simp [packValue, h.1, h.2]
      · have : i.toNat % 256 + 256 * (i.toNat / 256) = i.toNat := by omega
        simp [unpackValue, leNat, this, Int.toNat_of_nonneg h.1]
  case F.float32 bits =>
      refine ⟨_, rfl, rfl, ?_⟩
      have : bits % 256 + 256 * (bits / 256 % 256 + 256 *
          (bits / 65536 % 256 + 256 * (bits / 16777216 % 256))) = bits := by
        omega
      simp [unpackValue, leNat, this]
  case S.bytes n bs =>
      refine ⟨bs, ?_, by simp [widthOf, h], ?_⟩
      · simp [packValue, h, List.take_of_length_le (Nat.le_of_eq h)]
      · simp [unpackValue]

/-- `_serialize` succeeds on a conforming content dict, the payload has the
schema's exact width, and unpacking it restores every field value in
declared order. -/
theorem serializeFields_ok (fields : List FieldDef)
    (content : String → Option PyValue) (h : conforms fields content) :
    ∃ body, serializeFields fields content = .ok body ∧
      body.length = calcsize fields ∧
      (unpackGo fields body).map Prod.fst = fields.map (·.1) ∧
      ∀ p ∈ unpackGo fields body, content p.1 = some p.2 := by
  induction fields with
  | nil => exact ⟨[], rfl, rfl, rfl, by simp [unpackGo]⟩
  | cons f rest ih =>
      obtain ⟨fname, fmt, units⟩ := f
      have hhead := h _ (List.mem_cons_self _ _)
      unfold representableAt at hhead
      obtain ⟨restBody, hser, hlen, hfst, hvals⟩ :=
        ih fun g hg => h g (List.mem_cons_of_mem _ hg)
      cases hv : content fname with
      | none => rw [hv] at hhead; simp at hhead
      | some v =>
          rw [hv] at hhead
          simp only at hhead
          obtain ⟨chunk, hpack, hw, hun⟩ := pack_unpack_inv fmt v hhead
          refine ⟨chunk ++ restBody, ?_, ?_, ?_, ?_⟩
          · simp [serializeFields, hv, hpack, hser]
          · simp [calcsize, hlen, hw]
          · unfold unpackGo
            rw [← hw, List.take_left, List.drop_left]
            simp [hun, hfst]
          · intro p hp
            unfold unpackGo at hp
            rw [← hw, List.take_left, List.drop_left, hun] at hp
            rcases List.mem_cons.mp hp with rfl | hp
            · exact hv
            · exact hvals p hp

/-- `_serialize` only reads the content dict at the schema's own field
names. -/
theorem serializeFields_congr (fields : List FieldDef)
    (c1 c2 : String → Option PyValue) (h : ∀ f ∈ fields, c1 f.1 = c2 f.1) :
    serializeFields fields c1 = serializeFields fields c2 := by
  induction fields with
  | nil => rfl
  | cons f rest ih =>
      obtain ⟨fname, fmt, units⟩ := f
      unfold serializeFields
      rw [h _ (List.mem_cons_self _ _),
        ih fun g hg => h g (List.mem_cons_of_mem _ hg)]

/-- A successful schema lookup is one of the four registry entries. -/
theorem lookupMsg_cases (name : String) (mdef : MessageDef)
    (h : lookupMsg name = some mdef) :
    name = "global" ∧ mdef = globalDef ∨
    name = "waypoint" ∧ mdef = waypointDef ∨
    name = "control" ∧ mdef = controlDef ∨
    name = "message" ∧ mdef = messageDef := by
  rcases eq_or_ne name "global" with rfl | h1
  · simp [lookupMsg, MESSAGES, List.find?] at h
    exact Or.inl ⟨rfl, h.symm⟩
  rcases eq_or_ne name "waypoint" with rfl | h2
  · simp [lookupMsg, MESSAGES, List.find?] at h
    exact Or.inr (Or.inl ⟨rfl, h.symm⟩)
  rcases eq_or_ne name "control" with rfl | h3
  · simp [lookupMsg, MESSAGES, List.find?] at h
    exact Or.inr (Or.inr (Or.inl ⟨rfl, h.symm⟩))
  rcases eq_or_ne name "message" with rfl | h4
  · simp [lookupMsg, MESSAGES, List.find?] at h
    exact Or.inr (Or.inr (Or.inr ⟨rfl, h.symm⟩))
  · exfalso
    have e1 : ("global" == name) = false := beq_eq_false_iff_ne.mpr (Ne.symm h1)
    have e2 : ("waypoint" == name) = false := beq_eq_false_iff_ne.mpr (Ne.symm h2)
    have e3 : ("control" == name) = false := beq_eq_false_iff_ne.mpr (Ne.symm h3)
    have e4 : ("message" == name) = false := beq_eq_false_iff_ne.mpr (Ne.symm h4)
    simp [lookupMsg, MESSAGES, List.find?, e1, e2, e3, e4] at h

/-- The id-indexed lookup done by `deserialize` agrees with the name-indexed
lookup done by `serialize`. -/
theorem find?_id_of_lookupMsg (name : String) (mdef : MessageDef)
    (h : lookupMsg name = some mdef) :
    MESSAGES.find? (fun p => p.2.id == mdef.id) = some (name, mdef) := by
  rcases lookupMsg_cases name mdef h with ⟨rfl, rfl⟩ | ⟨rfl, rfl⟩ | ⟨rfl, rfl⟩ | ⟨rfl, rfl⟩ <;>
    decide

/-! ## Claim C2 -/

/-- C2: for every registered schema and every content dict that carries the
schema's name tag and one representable value per schema field,
`deserialize (serialize content)` succeeds and returns the dict back: its
keys are exactly the schema's field names plus `name` (in that order), and
every entry's value is the one `content` held, with `name` bound to the
schema's name. -/
theorem c2_roundtrip (name : String) (mdef : MessageDef)
    (content : String → Option PyValue)
    (hname : lookupMsg name = some mdef)
    (htag : content "name" = some (.str name))
    (hconf : conforms mdef.fields content) :
    ∃ wire decoded,
      serialize content = .ok wire ∧
      deserialize wire = .ok decoded ∧
      decoded.map Prod.fst = mdef.fields.map (·.1) ++ ["name"] ∧
      ∀ p ∈ decoded, content p.1 = some p.2 := by
  obtain ⟨body, hser, hlen, hfst, hvals⟩ := serializeFields_ok mdef.fields content hconf
  refine ⟨36 :: mdef.id :: body,
    unpackGo mdef.fields body ++ [("name", .str name)], ?_, ?_, ?_, ?_⟩
  · simp [serialize, htag, hname, hser]
  · simp [deserialize, find?_id_of_lookupMsg name mdef hname, structUnpack, hlen]
  · simp [hfst]
  · intro p hp
    rcases List.mem_append.mp hp with hp | hp
    · exact hvals p hp
    · simp only [List.mem_singleton] at hp
      rw [hp]
      exact htag

/-- Witness for C2 on the `control` schema with `type = 128`. -/
theorem c2_roundtrip_witness :
    ∃ wire decoded,
      serialize cControl = .ok wire ∧
      deserialize wire = .ok decoded ∧
      decoded.map Prod.fst = controlDef.fields.map (·.1) ++ ["name"] ∧
      ∀ p ∈ decoded, cControl p.1 = some p.2 :=
  c2_roundtrip "control" controlDef cControl (by decide) (by decide) (by decide)

/-! ## Claim C4 -/

/-- C4: on any input of at least two bytes, `deserialize` fails with the
start-byte assertion (`InvalidHeader`) when byte 0 is not `'$'` (36); with
the id assertion (`UnknownSchemaId`) when byte 0 is `'$'` but byte 1 is no
registered schema id; with `struct.error` (`MalformedPayload`) when the
header is valid but the payload length differs from the schema's total
field width; and a failing call returns no (partial) result. -/
theorem c4_decode_errors (b0 b1 : Nat) (rest : List Nat) :
    (b0 ≠ 36 → deserialize (b0 :: b1 :: rest) = .error .invalidHeader) ∧
    (b0 = 36 → (∀ p ∈ MESSAGES, p.2.id ≠ b1) →
      deserialize (b0 :: b1 :: rest) = .error .unknownSchemaId) ∧
    (b0 = 36 → ∀ name mdef, lookupMsg name = some mdef → mdef.id = b1 →
      rest.length ≠ calcsize mdef.fields →
      deserialize (b0 :: b1 :: rest) = .error .malformedPayload) ∧
    (∀ e r, deserialize (b0 :: b1 :: rest) = .error e →
      deserialize (b0 :: b1 :: rest) ≠ .ok r) := by
  refine ⟨?_, ?_, ?_, ?_⟩
  · intro h
    simp [deserialize, h]
  · intro h hids
    subst h
    have hnone : MESSAGES.find? (fun p => p.2.id == b1) = none := by
      rw [List.find?_eq_none]
      intro p hp
      simpa using hids p hp
    simp [deserialize, hnone]
  · intro h name mdef hm hid hlen
    subst h
    have hfind := find?_id_of_lookupMsg name mdef hm
    rw [hid] at hfind
    simp [deserialize, hfind, structUnpack, hlen]
  · intro e r he
    rw [he]
    simp

/-- Witness for C4: a wrong start byte, an unknown id under a good start
byte, and a valid `control` header with an empty payload (the schema needs
one byte). -/
theorem c4_decode_errors_witness :
    deserialize [37, 9] = .error .invalidHeader ∧
    deserialize [36, 9] = .error .unknownSchemaId ∧
    deserialize [36, 3] = .error .malformedPayload :=
  ⟨(c4_decode_errors 37 9 []).1 (by decide),
   (c4_decode_errors 36 9 []).2.1 rfl (by decide),
   (c4_decode_errors 36 3 []).2.2.1 rfl "control" controlDef (by decide) (by decide)
     (by decide)⟩

/-! ## Claim C7 -/

/-- C7 as stated is wrong: `struct.pack('B', 300)` raises `struct.error`
instead of truncating, so `serialize` fails on the `control` dict whose
`type` is 300, even though every schema field is present. -/
theorem c7_counterexample :
    serialize cOverflow = .error .structError ∧
    cOverflow "type" = some (.int 300) ∧
    cOverflow "name" = some (.str "control") := by
  decide

/-- C7 (amended): `encode` does not coerce — an unsigned-byte field given a
value outside 0–255 makes the pack raise `struct.error` — and `encode`
succeeds exactly on value sets whose fields are all present with values
inside the wire type's representable range. -/
theorem c7_encode_range :
    (∀ i : Int, i < 0 ∨ 255 < i → packValue .B (.int i) = .error .structError) ∧
    (∀ (name : String) (mdef : MessageDef) (content : String → Option PyValue),
      lookupMsg name = some mdef → content "name" = some (.str name) →
      conforms mdef.fields content → ∃ wire, serialize content = .ok wire) := by
  constructor
  · intro i hi
    have : ¬ (0 ≤ i ∧ i ≤ 255) := by omega
    simp [packValue, this]
  · intro name mdef content hname htag hconf
    obtain ⟨body, hser, _, _, _⟩ := serializeFields_ok mdef.fields content hconf
    exact ⟨36 :: mdef.id :: body, by simp [serialize, htag, hname, hser]⟩

/-- Witness for C7 at `i = 300` and at the conforming `control` dict. -/
theorem c7_encode_range_witness :
    packValue .B (.int 300) = .error .structError ∧
    ∃ wire, serialize cControl = .ok wire :=
  ⟨c7_encode_range.1 300 (by decide),
   c7_encode_range.2 "control" controlDef cControl (by decide) (by decide) (by decide)⟩

/-! ## Claim C9 -/

/-- C9: `serialize` reads the content dict only at `"name"` and at the named
schema's own field names, so two dicts that agree there — whatever extra
keys either carries — produce identical wire bytes (and identical failures),
and extra keys can neither fail nor change the encoding. -/
theorem c9_extra_keys_ignored (c1 c2 : String → Option PyValue)
    (name : String) (mdef : MessageDef)
    (hname : lookupMsg name = some mdef)
    (h1 : c1 "name" = some (.str name))
    (h2 : c2 "name" = some (.str name))
    (hf : ∀ f ∈ mdef.fields, c1 f.1 = c2 f.1) :
    serialize c1 = serialize c2 := by
  simp [serialize, h1, h2, hname, serializeFields_congr mdef.fields c1 c2 hf]

/-- Witness for C9: `cControlB` is `cControlA` plus the extra key
`time_boot_ms` (as `gather_sensors_data` adds extra keys to the `global`
dict); the wire bytes are identical. -/
theorem c9_extra_keys_ignored_witness :
    serialize cControlA = serialize cControlB :=
  c9_extra_keys_ignored cControlA cControlB "control" controlDef
    (by decide) (by decide) (by decide) (by decide)

/-! ## Dispatcher lemmas -/

/-- A successful ASCII encode yields the character codes. -/
theorem asciiEncode_eq (cs : Text) (bs : List Nat) (h : asciiEncode cs = some bs) :
    bs = cs.map Char.toNat := by
  unfold asciiEncode at h
  split at h
  · exact (Option.some.inj h).symm
  · exact absurd h (by simp)

/-- A list is a prefix of itself followed by anything. -/
theorem isPrefixOf_self_append (l m : List Nat) : l.isPrefixOf (l ++ m) = true := by
  induction l with
  | nil => cases m <;> rfl
  | cons a l ih => simp [List.isPrefixOf, ih]

/-- The enqueued acknowledgment bytes always pass the `cmd_ack:` test. -/
theorem isAckBytes_ackBytes (income : Text) : isAckBytes (ackBytes income) = true := by
  unfold isAckBytes ackBytes
  rw [List.map_append]
  exact isPrefixOf_self_append _ _

/-- The `get_mode` reply bytes (which begin with `text:`) never pass the
`cmd_ack:` test. -/
theorem isAckBytes_of_textMsg (m : Text) :
    isAckBytes (("text:Autopilot mode: ".data ++ m).map Char.toNat) = false := by
  have h1 : ("text:Autopilot mode: ".data ++ m).map Char.toNat =
      116 :: ("ext:Autopilot mode: ".data ++ m).map Char.toNat := rfl
  have h2 : "cmd_ack:".data.map Char.toNat = 99 :: "md_ack:".data.map Char.toNat := rfl
  rw [isAckBytes, h1, h2]
  simp [List.isPrefixOf]

/-- `branch_waypoint` never touches the queue. -/
theorem branch_waypoint_queue (income : Text) (acc : DispatchResult) :
    (branch_waypoint income acc).state.unsent_data = acc.state.unsent_data := by
  unfold branch_waypoint
  repeat' split
  all_goals rfl

/-- `branch_output_rest_time` never touches the queue. -/
theorem branch_output_rest_time_queue (income : Text) (acc : DispatchResult) :
    (branch_output_rest_time income acc).state.unsent_data = acc.state.unsent_data := by
  unfold branch_output_rest_time
  repeat' split
  all_goals rfl

/-- `branch_input_rest_time` never touches the queue. -/
theorem branch_input_rest_time_queue (income : Text) (acc : DispatchResult) :
    (branch_input_rest_time income acc).state.unsent_data = acc.state.unsent_data := by
  unfold branch_input_rest_time
  repeat' split
  all_goals rfl

/-- `branch_set_mode` never touches the queue. -/
theorem branch_set_mode_queue (income : Text) (acc : DispatchResult) :
    (branch_set_mode income acc).state.unsent_data = acc.state.unsent_data := by
  unfold branch_set_mode
  repeat' split
  all_goals rfl

/-- `branch_arm` never touches the queue. -/
theorem branch_arm_queue (income : Text) (acc : DispatchResult) :
    (branch_arm income acc).state.unsent_data = acc.state.unsent_data := by
  unfold branch_arm
  repeat' split
  all_goals rfl

/-- `branch_disarm` never touches the queue. -/
theorem branch_disarm_queue (income : Text) (acc : DispatchResult) :
    (branch_disarm income acc).state.unsent_data = acc.state.unsent_data := by
  unfold branch_disarm
  repeat' split
  all_goals rfl

/-- `branch_set_param` never touches the queue. -/
theorem branch_set_param_queue (income : Text) (acc : DispatchResult) :
    (branch_set_param income acc).state.unsent_data = acc.state.unsent_data := by
  unfold branch_set_param
  repeat' split
  all_goals rfl

/-- `branch_get_mode` appends at most its `text:`-tagged reply, never
anything passing the `cmd_ack:` test. -/
theorem branch_get_mode_queue (modeText income : Text) (acc : DispatchResult) :
    ∃ es, (branch_get_mode modeText income acc).state.unsent_data =
        acc.state.unsent_data ++ es ∧ es.filter isAckBytes = [] := by
  unfold branch_get_mode
  by_cases hok : acc.ok = false
  · rw [if_pos hok]
    exact ⟨[], by simp, rfl⟩
  rw [if_neg hok]
  by_cases hpre : "get_mode".data.isPrefixOf income = true
  · rw [if_pos hpre]
    cases hasc : asciiEncode ("text:Autopilot mode: ".data ++ modeText) with
    | none =>
        simp only [hasc]
        exact ⟨[], by simp [emit, raised], rfl⟩
    | some bs =>
        have hb : isAckBytes bs = false := by
          rw [asciiEncode_eq _ _ hasc]
          exact isAckBytes_of_textMsg modeText
        refine ⟨[bs], ?_, ?_⟩
        · simp only [hasc]
          simp [emit]
        · simp [hb]
  · rw [if_neg hpre]
    exact ⟨[], by simp, rfl⟩

/-- `branch_waypoint` is the identity when the text lacks the verb. -/
theorem branch_waypoint_skip (income : Text) (acc : DispatchResult)
    (h : "waypoint".data.isPrefixOf income = false) :
    branch_waypoint income acc = acc := by
  unfold branch_waypoint
  simp [h]

/-- `branch_output_rest_time` is the identity when the text lacks the verb. -/
theorem branch_output_rest_time_skip (income : Text) (acc : DispatchResult)
    (h : "output_rest_time".data.isPrefixOf income = false) :
    branch_output_rest_time income acc = acc := by
  unfold branch_output_rest_time
  simp [h]

/-- `branch_input_rest_time` is the identity when the text lacks the verb. -/
theorem branch_input_rest_time_skip (income : Text) (acc : DispatchResult)
    (h : "input_rest_time".data.isPrefixOf income = false) :
    branch_input_rest_time income acc = acc := by
  unfold branch_input_rest_time
  simp [h]

/-- `branch_set_mode` is the identity when the text lacks the verb. -/
theorem branch_set_mode_skip (income : Text) (acc : DispatchResult)
    (h : "set_mode".data.isPrefixOf income = false) :
    branch_set_mode income acc = acc := by
  unfold branch_set_mode
  simp [h]

/-- `branch_get_mode` is the identity when the text lacks the verb. -/
theorem branch_get_mode_skip (modeText income : Text) (acc : DispatchResult)
    (h : "get_mode".data.isPrefixOf income = false) :
    branch_get_mode modeText income acc = acc := by
  unfold branch_get_mode
  simp [h]

/-- `branch_arm` is the identity when the text lacks the verb. -/
theorem branch_arm_skip (income : Text) (acc : DispatchResult)
    (h : "arm".data.isPrefixOf income = false) :
    branch_arm income acc = acc := by
  unfold branch_arm
  simp [h]

/-- `branch_disarm` is the identity when the text lacks the verb. -/
theorem branch_disarm_skip (income : Text) (acc : DispatchResult)
    (h : "disarm".data.isPrefixOf income = false) :
    branch_disarm income acc = acc := by
  unfold branch_disarm
  simp [h]

/-- `branch_set_param` is the identity when the text lacks the verb. -/
theorem branch_set_param_skip (income : Text) (acc : DispatchResult)
    (h : "set_param".data.isPrefixOf income = false) :
    branch_set_param income acc = acc := by
  unfold branch_set_param
  simp [h]

/-- When the final acknowledgment step completes, the handler was still
alive, exactly the ack bytes were appended to the queue, and the last
recorded call is the drain. -/
theorem ackStep_spec (income : Text) (acc : DispatchResult)
    (h : (ackStep income acc).ok = true) :
    acc.ok = true ∧
    (ackStep income acc).state.unsent_data =
      acc.state.unsent_data ++ [ackBytes income] ∧
    (ackStep income acc).effects = acc.effects ++ [Effect.drainCall] := by
  unfold ackStep at h ⊢
  by_cases hok : acc.ok = false
  · rw [if_pos hok] at h
    rw [hok] at h
    simp at h
  · rw [if_neg hok] at h ⊢
    cases hasc : asciiEncode ("cmd_ack:".data ++ income) with
    | none =>
        rw [hasc] at h
        simp [raised] at h
    | some ack =>
        refine ⟨by revert hok; cases acc.ok <;> simp, ?_, ?_⟩
        · simp [emit, asciiEncode_eq _ _ hasc, ackBytes]
        · simp [emit]

/-- On an all-ASCII text the acknowledgment step of a still-alive handler
appends the ack and the drain call and completes. -/
theorem ackStep_ascii (income : Text) (acc : DispatchResult)
    (hok : acc.ok = true)
    (hascii : income.all (fun c => c.toNat < 128) = true) :
    ackStep income acc =
      ⟨acc.effects ++ [Effect.drainCall],
        { acc.state with unsent_data := acc.state.unsent_data ++ [ackBytes income] },
        acc.ok⟩ := by
  have hasc : asciiEncode ("cmd_ack:".data ++ income) = some (ackBytes income) := by
    unfold asciiEncode
    rw [if_pos]
    · rfl
    · rw [List.all_append]
      simp only [hascii, Bool.and_true]
      decide
  unfold ackStep
  rw [if_neg (by simp [hok]), hasc]
  rfl

/-- Across the eight verb branches the queue only ever grows, and only by
envelopes that are not acknowledgments. -/
theorem branches_queue (modeText income : Text) (a : DispatchResult) :
    ∃ es, (branch_set_param income (branch_disarm income (branch_arm income
        (branch_get_mode modeText income (branch_set_mode income
        (branch_input_rest_time income (branch_output_rest_time income
        (branch_waypoint income a)))))))).state.unsent_data =
      a.state.unsent_data ++ es ∧ es.filter isAckBytes = [] := by
  obtain ⟨es, hq, hf⟩ := branch_get_mode_queue modeText income
    (branch_set_mode income (branch_input_rest_time income
      (branch_output_rest_time income (branch_waypoint income a))))
  refine ⟨es, ?_, hf⟩
  rw [branch_set_param_queue, branch_disarm_queue, branch_arm_queue, hq,
    branch_set_mode_queue, branch_input_rest_time_queue,
    branch_output_rest_time_queue, branch_waypoint_queue]

/-! ## Claim C3 -/

/-- C3 as stated is wrong about the acknowledgment's encoding: handling
`"foo:bar"` (unknown verb) enqueues the *raw ASCII bytes* of
`"cmd_ack:foo:bar"`, not a `message`-schema envelope; the schema encoding
of that text (with the mandatory `'$'`/id header and zero-padding to 40
bytes) is a different byte string. -/
theorem c3_counterexample :
    (deal_with_income_data [] st0 "foo:bar".data).state.unsent_data = [fooBarAck] ∧
    serialize cMsgAck = .ok ([36, 4] ++ (fooBarAck ++ List.replicate 25 0)) ∧
    ([36, 4] ++ (fooBarAck ++ List.replicate 25 0) : List Nat) ≠ fooBarAck := by
  decide

/-- C3 (amended): whenever the handler runs to completion — unknown verbs
on ASCII text always do — exactly one acknowledgment envelope is appended
to the queue, namely the raw ASCII bytes of `"cmd_ack:" + text` (not a
`message`-schema encoding), and the handler's last call is the queue drain;
a text matching no verb makes no external side-effect call at all: its only
recorded call is that final drain. -/
theorem c3_ack_and_drain (modeText : Text) (st : SatState) (income : Text) :
    ((deal_with_income_data modeText st income).ok = true →
      ∃ es, (deal_with_income_data modeText st income).state.unsent_data =
          st.unsent_data ++ es ∧
        es.filter isAckBytes = [ackBytes income] ∧
        (deal_with_income_data modeText st income).effects.getLast? =
          some Effect.drainCall) ∧
    ((∀ v ∈ dispatchVerbs, v.isPrefixOf income = false) →
      income.all (fun c => c.toNat < 128) = true →
      deal_with_income_data modeText st income =
        ⟨[Effect.drainCall],
          ⟨st.unsent_data ++ [ackBytes income],
            st.rest_time_data_out, st.rest_time_data_in⟩, true⟩) := by
  constructor
  · intro h
    unfold deal_with_income_data at h ⊢
    have hm := ackStep_spec income _ h
    obtain ⟨es, hq, hf⟩ := branches_queue modeText income ⟨[], st, true⟩
    refine ⟨es ++ [ackBytes income], ?_, ?_, ?_⟩
    · rw [hm.2.1, hq]
      simp
    · rw [List.filter_append, hf]
      simp [isAckBytes_ackBytes]
    · rw [hm.2.2]
      simp
  · intro hv hascii
    unfold deal_with_income_data
    rw [branch_waypoint_skip _ _ (hv _ (by simp [dispatchVerbs])),
      branch_output_rest_time_skip _ _ (hv _ (by simp [dispatchVerbs])),
      branch_input_rest_time_skip _ _ (hv _ (by simp [dispatchVerbs])),
      branch_set_mode_skip _ _ (hv _ (by simp [dispatchVerbs])),
      branch_get_mode_skip _ _ _ (hv _ (by simp [dispatchVerbs])),
      branch_arm_skip _ _ (hv _ (by simp [dispatchVerbs])),
      branch_disarm_skip _ _ (hv _ (by simp [dispatchVerbs])),
      branch_set_param_skip _ _ (hv _ (by simp [dispatchVerbs])),
      ackStep_ascii income ⟨[], st, true⟩ rfl hascii]
    rfl

/-- Witness for C3 (amended) at the unknown-verb text `"foo:bar"` on the
initial globals: the handler completes, makes no external call, appends
exactly the raw acknowledgment, and drains. -/
theorem c3_ack_and_drain_witness :
    deal_with_income_data [] st0 "foo:bar".data =
      ⟨[Effect.drainCall],
        ⟨st0.unsent_data ++ [ackBytes "foo:bar".data],
          st0.rest_time_data_out, st0.rest_time_data_in⟩, true⟩ :=
  (c3_ack_and_drain [] st0 "foo:bar".data).2 (by decide) (by decide)

/-! ## Claim C10 -/

/-- C10 as stated (every text that merely starts with a verb triggers that
verb's side effect) is wrong: `"waypointx"` starts with `"waypoint"`, but
the 5-way unpack of `split(":")` raises `ValueError` first, so the handler
dies with no side-effect call at all (and no acknowledgment either). -/
theorem c10_counterexample :
    "waypoint".data.isPrefixOf "waypointx".data = true ∧
    deal_with_income_data [] st0 "waypointx".data = ⟨[], st0, false⟩ := by
  decide

/-- C10 (amended): verb matching really is `str.startswith` on the whole
text — `"armada"` (not the exact verb `"arm"`) triggers the arm call, and
`"set_modex:auto"` (not the exact verb `"set_mode"`) triggers the
auto-mode change, each then acknowledged as usual — but a prefix-matched
text whose arguments fail to parse raises before the side effect. -/
theorem c10_startswith_matching :
    ("armada".data ≠ "arm".data ∧
      "arm".data.isPrefixOf "armada".data = true ∧
      deal_with_income_data [] st0 "armada".data =
        ⟨[.commandLongCall "MAV_CMD_COMPONENT_ARM_DISARM" [.pInt 1], .drainCall],
          ⟨[ackBytes "armada".data], 120, 10⟩, true⟩) ∧
    ("set_modex:auto".data ≠ "set_mode:auto".data ∧
      "set_mode".data.isPrefixOf "set_modex:auto".data = true ∧
      deal_with_income_data [] st0 "set_modex:auto".data =
        ⟨[.commandLongCall "MAV_CMD_DO_SET_MODE" [.pInt 1, .pInt 10], .drainCall],
          ⟨[ackBytes "set_modex:auto".data], 120, 10⟩, true⟩) := by
  decide
